import Mathlib

/-!
# Verification of the Document Intelligence Pipeline

Shallow embedding of the repository's document-processing services:
the text extractor (ollamaService), the stamp/signature analyzer
(stampSignatureService) and the classifier / field extractor
(openAIService).  External HTTP calls are modelled by explicit outcome
values; JavaScript numbers are modelled by ℚ; JavaScript strings by
Lean strings (ASCII case folding; UTF-16 length and codepoint length
agree on every input used here).  Timing fields (processingTime) are
not modelled.
-/

namespace Pipeline

/-! ## JavaScript string primitives -/

/-- The whitespace characters matched by a JavaScript regular expression
class escape for whitespace and removed by trim. -/
def isJsSpace (c : Char) : Bool :=
  c == ' ' || c == '\t' || c == '\n' || c == '\r' ||
  c.toNat == 0x0b || c.toNat == 0x0c || c.toNat == 0xa0 || c.toNat == 0x1680 ||
  (0x2000 ≤ c.toNat && c.toNat ≤ 0x200a) || c.toNat == 0x2028 || c.toNat == 0x2029 ||
  c.toNat == 0x202f || c.toNat == 0x205f || c.toNat == 0x3000 || c.toNat == 0xfeff

/-- A digit as matched by the JavaScript digit class. -/
def digitCh (c : Char) : Bool := '0' ≤ c && c ≤ '9'

/-- An ASCII letter. -/
def asciiLetter (c : Char) : Bool := ('a' ≤ c && c ≤ 'z') || ('A' ≤ c && c ≤ 'Z')

/-- Case folding of one character (toLowerCase; our inputs are ASCII). -/
def jsLower (c : Char) : Char := c.toLower

/-- toLowerCase on a whole string. -/
def strLower (s : String) : String := String.mk (s.data.map jsLower)

/-- split on a single-character separator, keeping empty pieces, the
semantics of the JavaScript split with a one-character separator (the
empty string splits to one empty piece). -/
def splitOnChar (sep : Char) : List Char → List (List Char)
  | [] => [[]]
  | c :: t =>
      let r := splitOnChar sep t
      if c == sep then [] :: r
      else
        match r with
        | h :: t2 => (c :: h) :: t2
        | [] => [[c]]

/-- JavaScript split on a space. -/
def jsSplitSpace (s : String) : List String := (splitOnChar ' ' s.data).map String.mk

/-- Prefix test on character lists. -/
def isPrefixList : List Char → List Char → Bool
  | [], _ => true
  | _ :: _, [] => false
  | a :: as, b :: bs => a == b && isPrefixList as bs

/-- Case-insensitive prefix test on character lists. -/
def isPrefixCI : List Char → List Char → Bool
  | [], _ => true
  | _ :: _, [] => false
  | a :: as, b :: bs => (jsLower a == jsLower b) && isPrefixCI as bs

/-- Substring containment on character lists; this is the semantics of
the JavaScript includes test (the empty needle is contained in
everything, including the empty string). -/
def containsSub (hay needle : List Char) : Bool :=
  match hay with
  | [] => isPrefixList needle []
  | _ :: t => isPrefixList needle hay || containsSub t needle

/-- String.includes of JavaScript. -/
def strIncludes (hay needle : String) : Bool := containsSub hay.data needle.data

/-- JavaScript trim: strip leading and trailing whitespace. -/
def jsTrimList (s : List Char) : List Char :=
  ((s.dropWhile isJsSpace).reverse.dropWhile isJsSpace).reverse

/-- JavaScript trim on strings. -/
def jsTrim (s : String) : String := String.mk (jsTrimList s.data)

/-! ## A small backtracking regular-expression engine

Each pattern of the source is compiled by hand into this continuation
shape.  Semantics follow the JavaScript engine on the pattern fragment
actually used by the repository: alternatives are tried left to right,
class repetitions are greedy with backtracking, the overall search is
leftmost.  A mark records a position used to reconstruct the one
capture group each source pattern has. -/

inductive RE where
  | nil : RE
  | chr : (Char → Bool) → RE → RE
  | rep : Nat → Option Nat → (Char → Bool) → RE → RE
  | alts : List (List Char) → RE → RE
  | mark : RE → RE

/-- Length of the maximal prefix whose characters satisfy the class. -/
def maxRun (p : Char → Bool) : List Char → Nat
  | [] => 0
  | c :: t => if p c then maxRun p t + 1 else 0

/-- Counts from top down to lo, the greedy order of a repetition. -/
def countsDesc (lo top : Nat) : List Nat :=
  (List.range (top + 1 - lo)).map (fun i => top - i)

/-- Match a pattern at the front of the input.  Returns the rest of the
input after the match together with the positions (as suffixes) at
which marks were crossed, in the order they were crossed. -/
def reMatch : RE → List Char → Option (List Char × List (List Char))
  | .nil, s => some (s, [])
  | .chr _ _, [] => none
  | .chr p k, c :: t => if p c then reMatch k t else none
  | .alts ls k, s =>
      ls.findSome? (fun l => if isPrefixCI l s then reMatch k (s.drop l.length) else none)
  | .rep lo hi p k, s =>
      let m := maxRun p s
      let top := match hi with | some h => min h m | none => m
      if lo > top then none
      else (countsDesc lo top).findSome? (fun i => reMatch k (s.drop i))
  | .mark k, s => (reMatch k s).map (fun r => (r.1, s :: r.2))

/-- Leftmost search: try the match at every start position in order. -/
def reFirst (r : RE) (s : List Char) : Option (List Char × List (List Char)) :=
  match reMatch r s with
  | some res => some res
  | none => match s with
            | [] => none
            | _ :: t => reFirst r t

/-- The capture group of a successful match: the span between the first
mark and the second mark, or between the only mark and the end of the
match. -/
def capOf (res : List Char × List (List Char)) : Option (List Char) :=
  match res.2 with
  | [a, b] => some (a.take (a.length - b.length))
  | [a] => some (a.take (a.length - res.1.length))
  | _ => none

/-- Whether the pattern matches somewhere in the string (test). -/
def reTest (r : RE) (s : String) : Bool := (reFirst r s.data).isSome

/-- First capture group of the leftmost match, if the pattern matches. -/
def reCapture (r : RE) (s : String) : Option (List Char) :=
  (reFirst r s.data).bind capOf

/-! ### Pattern combinators -/

/-- A case-insensitive literal. -/
def litCI (s : String) (k : RE) : RE := .alts [s.data] k

/-- A case-insensitive alternation of literals, tried in order. -/
def anyOf (ls : List String) (k : RE) : RE := .alts (ls.map String.data) k

/-- Greedy star over a character class. -/
def starC (p : Char → Bool) (k : RE) : RE := .rep 0 none p k

/-- Greedy plus over a character class. -/
def plusC (p : Char → Bool) (k : RE) : RE := .rep 1 none p k

/-- Optional single character. -/
def optC (p : Char → Bool) (k : RE) : RE := .rep 0 (some 1) p k

/-- The dot of a JavaScript pattern: any character except a line
terminator. -/
def jsDotCh (c : Char) : Bool :=
  !(c == '\n' || c == '\r' || c.toNat == 0x2028 || c.toNat == 0x2029)

/-- Greedy dot-star. -/
def dotStar (k : RE) : RE := starC jsDotCh k

/-- Greedy whitespace-plus. -/
def sPlus (k : RE) : RE := plusC isJsSpace k

/-- Greedy whitespace-star. -/
def sStar (k : RE) : RE := starC isJsSpace k

/-- Sequence a list of pattern fragments. -/
def seqRE (fs : List (RE → RE)) : RE := fs.foldr (fun f k => f k) .nil

/-- A capture group over a greedy plus of a class, ending the pattern. -/
def capPlus (p : Char → Bool) (k : RE) : RE := .mark (.rep 1 none p k)

/-! ## Text extractor (ollamaService) -/

/-- The bounded list of institution-specific terms of
calculateConfidence. -/
def documentKeywords : List String :=
  ["date", "name", "address", "phone", "email", "officer", "department", "police"]

/-- Number of distinct document keywords contained in the lowercased
text. -/
def keywordMatchCount (text : String) : Nat :=
  (documentKeywords.filter (fun keyword => strIncludes (strLower text) keyword)).length

/-- Punctuation class of calculateConfidence. -/
def punctCh (c : Char) : Bool :=
  c == '.' || c == ',' || c == ';' || c == ':' || c == '!' || c == '?'

/-- The locally computed extraction confidence, translated from
calculateConfidence of ollamaService. -/
def calculateConfidence (text : String) : ℚ :=
  if text.length == 0 then 0 else
  let c1 : ℚ := 0.7
  let c2 := if text.length > 100 then c1 + 0.1 else c1
  let c3 := if text.length > 500 then c2 + 0.1 else c2
  let c4 := if text.length < 20 then c3 - 0.2 else c3
  let hasNumbers := text.data.any digitCh
  let hasLetters := text.data.any asciiLetter
  let hasPunctuation := text.data.any punctCh
  let c5 := if hasNumbers && hasLetters then c4 + 0.05 else c4
  let c6 := if hasPunctuation then c5 + 0.05 else c5
  let km := keywordMatchCount text
  let c7 := if km > 0 then c6 + km * 0.02 else c6
  min (max c7 0) 1

/-! ### The extraction call and its failure modes

The vision service reply is modelled by an explicit outcome; the file
encoding step (fileToBase64) by an Except value. -/

/-- Possible outcomes of the generate call of processWithGemma3. -/
inductive VisionOutcome where
  | unreachable : String → VisionOutcome
  | noTextField : VisionOutcome
  | text : String → VisionOutcome

/-- Environment of one extractTextFromDocument invocation. -/
structure OllamaEnv where
  fileB64 : Except String String
  vision : VisionOutcome

/-- Result shape of the text extractor (processingTime not modelled). -/
structure OllamaTextExtractionResult where
  extractedText : String
  confidence : ℚ
  model : String

/-- processWithGemma3: returns the trimmed reply text, or throws when
the service is unreachable or the reply lacks a response field. -/
def processWithGemma3 (v : VisionOutcome) : Except String String :=
  match v with
  | .unreachable msg => .error msg
  | .noTextField => .error "No response from Ollama model"
  | .text s => .ok (jsTrim s)

/-- extractTextFromDocument of ollamaService: on any failure the error
is wrapped and rethrown to the caller. -/
def extractTextFromDocument (env : OllamaEnv) : Except String OllamaTextExtractionResult :=
  match env.fileB64 with
  | .error m => .error ("Ollama text extraction failed: " ++ m)
  | .ok _ =>
      match processWithGemma3 env.vision with
      | .error m => .error ("Ollama text extraction failed: " ++ m)
      | .ok t => .ok { extractedText := t, confidence := calculateConfidence t, model := "gemma3" }

/-! ## Stamp/signature analyzer (stampSignatureService) -/

/-- One record of the official stamp registry. -/
structure StampRecord where
  id : String
  name : String
  keywords : List String
  pattern : RE

/-- The compiled match pattern of stamp 1. -/
def stamp1Pattern : RE := seqRE
  [litCI "OFFICER", sPlus, litCI "COMMANDING", dotStar, litCI "14", dotStar,
   litCI "BN", dotStar, litCI "A.P.S.P", dotStar, litCI "ANANTHAPURAMU"]

/-- The compiled match pattern of stamp 2. -/
def stamp2Pattern : RE := seqRE
  [litCI "STATE", sPlus, litCI "OFFICER", dotStar, litCI "ADGP", dotStar,
   litCI "APSP", dotStar, litCI "HEAD", sPlus, litCI "OFFICE", dotStar, litCI "MANGALAGIRI"]

/-- The compiled match pattern of stamp 3. -/
def stamp3Pattern : RE := seqRE
  [litCI "INSPECTOR", sPlus, litCI "GENERAL", dotStar, litCI "POLICE", dotStar,
   litCI "APSP", dotStar, litCI "BNS", dotStar, litCI "AMARAVATHI"]

/-- The compiled match pattern of stamp 4. -/
def stamp4Pattern : RE := seqRE
  [litCI "DY", dotStar, litCI "INSPECTOR", sPlus, litCI "GENERAL", dotStar,
   litCI "POLICE", dotStar, litCI "APSP", dotStar, litCI "BATTALIONS", dotStar,
   litCI "MANGALAGIRI"]

/-- The compiled match pattern of stamp 5. -/
def stamp5Pattern : RE := seqRE
  [litCI "SD", dotStar, litCI "SREENIVASULU", dotStar, litCI "IPS", dotStar,
   litCI "COMMISSIONER", dotStar, litCI "POLICE", dotStar, litCI "VIJAYAWADA"]

/-- The compiled match pattern of stamp 6. -/
def stamp6Pattern : RE := seqRE
  [litCI "SHANKHABRATA", dotStar, litCI "BAGCHI", dotStar, litCI "IPS", dotStar,
   litCI "DIRECTOR", sPlus, litCI "GENERAL", dotStar, litCI "POLICE", dotStar,
   litCI "APSP", dotStar, litCI "BATTALIONS"]

/-- The master list of official stamps, loaded at module initialization
and read-only thereafter. -/
def OFFICIAL_STAMP_MASTER_LIST : List StampRecord :=
  [{ id := "stamp_1",
     name := "OFFICER COMMANDING 14th BN A.P.S.P. ANANTHAPURAMU",
     keywords := ["OFFICER COMMANDING", "14TH BN", "A.P.S.P", "ANANTHAPURAMU"],
     pattern := stamp1Pattern },
   { id := "stamp_2",
     name := "STATE OFFICER TO ADGP APSP HEAD OFFICE MANGALAGIRI",
     keywords := ["STATE OFFICER", "ADGP", "APSP", "HEAD OFFICE", "MANGALAGIRI"],
     pattern := stamp2Pattern },
   { id := "stamp_3",
     name := "Inspector General of Police APSP Bns, Amaravathi",
     keywords := ["INSPECTOR GENERAL", "POLICE", "APSP", "BNS", "AMARAVATHI"],
     pattern := stamp3Pattern },
   { id := "stamp_4",
     name := "Dy. Inspector General of Police-IV APSP Battalions, Mangalagiri",
     keywords := ["DY", "INSPECTOR GENERAL", "POLICE", "APSP", "BATTALIONS", "MANGALAGIRI"],
     pattern := stamp4Pattern },
   { id := "stamp_5",
     name := "Sd/- B. Sreenivasulu, IPS., Addl. Commissioner of Police, Vijayawada City",
     keywords := ["SD", "SREENIVASULU", "IPS", "COMMISSIONER", "POLICE", "VIJAYAWADA"],
     pattern := stamp5Pattern },
   { id := "stamp_6",
     name := "Dr. SHANKHABRATA BAGCHI IPS., Addl. Director General of Police, APSP Battalions",
     keywords := ["SHANKHABRATA", "BAGCHI", "IPS", "DIRECTOR GENERAL", "POLICE", "APSP", "BATTALIONS"],
     pattern := stamp6Pattern }]

/-- Detection half of the analyzer result. -/
structure StampDetectionResult where
  status : String
  coordinates : Option (Int × Int × Int × Int)
  type : Option String
  confidence : Option ℚ
  extractedTextField : Option String
  personName : Option String
  date : Option String
  deriving DecidableEq, Repr

/-- Signature half of the analyzer result. -/
structure SignatureDetectionResult where
  status : String
  coordinates : Option (Int × Int × Int × Int)
  confidence : Option ℚ
  personName : Option String
  date : Option String
  deriving DecidableEq, Repr

/-- Inner result shape shared by the model path and the fallback path
of the analyzer. -/
structure StampInnerResult where
  stamp : StampDetectionResult
  signature : SignatureDetectionResult
  stampValidation : String
  matchedStampType : Option String
  personName : Option String
  date : Option String
  deriving DecidableEq, Repr

/-- Full analyzer result (processingTime not modelled). -/
structure StampSignatureAnalysisResult where
  stamp : StampDetectionResult
  signature : SignatureDetectionResult
  stampValidation : String
  matchedStampType : Option String
  extractedText : Option String
  personName : Option String
  date : Option String
  deriving DecidableEq, Repr

/-- Keywords whose presence flags a stamp in fallbackTextAnalysis. -/
def stampKeywordList : List String :=
  ["stamp", "seal", "officer", "police", "commanding", "commissioner"]

/-- Keywords whose presence flags a signature in fallbackTextAnalysis. -/
def signatureKeywordList : List String :=
  ["signature", "signed", "sd/", "sign"]

/-- Character class of the first and second signer-name patterns. -/
def nameDotCh (c : Char) : Bool := asciiLetter c || isJsSpace c || c == '.'

/-- First signer-name pattern of fallbackTextAnalysis. -/
def signerPattern1 : RE := seqRE
  [litCI "sd", optC (· == '/'), sStar, optC (· == '-'), sStar, capPlus nameDotCh]

/-- Second signer-name pattern of fallbackTextAnalysis. -/
def signerPattern2 : RE := seqRE
  [litCI "signed", sPlus, litCI "by", sPlus, capPlus nameDotCh]

/-- Third signer-name pattern of fallbackTextAnalysis: two letter words
followed by an optional comma and the IPS suffix. -/
def signerPattern3 : RE :=
  .mark (plusC asciiLetter (sPlus (plusC asciiLetter
    (.mark (optC (· == ',') (sPlus (litCI "ips" .nil)))))))

/-- The ordered signer-name pattern list. -/
def namePatterns : List RE := [signerPattern1, signerPattern2, signerPattern3]

/-- The generic date pattern shared by both services. -/
def datePattern : RE :=
  .mark (.rep 1 (some 2) digitCh (.chr (fun c => c == '-' || c == '/')
    (.rep 1 (some 2) digitCh (.chr (fun c => c == '-' || c == '/')
      (.rep 2 (some 4) digitCh .nil)))))

/-- fallbackTextAnalysis of stampSignatureService: the local heuristic
analyzer run on the extracted text. -/
def fallbackTextAnalysis (extractedText : String) : StampInnerResult :=
  let textLower := strLower extractedText
  let hasStampKeywords := stampKeywordList.any (fun keyword => strIncludes textLower keyword)
  let hasSignatureKeywords := signatureKeywordList.any (fun keyword => strIncludes textLower keyword)
  let personName := (namePatterns.findSome? (fun pat =>
    match reCapture pat extractedText with
    | some cap => if cap.isEmpty then none else some (jsTrim (String.mk cap))
    | none => none))
  let date := (reCapture datePattern extractedText).map String.mk
  let matched := OFFICIAL_STAMP_MASTER_LIST.find? (fun stamp => reTest stamp.pattern extractedText)
  { stamp :=
      { status := if hasStampKeywords then "Present" else "Absent"
        coordinates := if hasStampKeywords then some (100, 100, 200, 100) else none
        type := if hasStampKeywords then some "official_stamp" else none
        confidence := some (if hasStampKeywords then 0.6 else 0.3)
        extractedTextField := none
        personName := personName
        date := date }
    signature :=
      { status := if hasSignatureKeywords then "Present" else "Absent"
        coordinates := if hasSignatureKeywords then some (300, 400, 150, 50) else none
        confidence := some (if hasSignatureKeywords then 0.6 else 0.3)
        personName := personName
        date := date }
    stampValidation := if matched.isSome then "Y" else "N"
    matchedStampType := matched.map StampRecord.name
    personName := personName
    date := date }

/-! ### The model path of the analyzer -/

/-- JavaScript truthiness guard for a string value: an absent or empty
string is falsy. -/
def jsStrOrNone (o : Option String) : Option String :=
  match o with
  | some s => if s = "" then none else some s
  | none => none

/-- JavaScript short-circuit or with a numeric default: an absent or
zero score is replaced by the default. -/
def jsNumOr (o : Option ℚ) (d : ℚ) : ℚ :=
  match o with
  | some q => if q = 0 then d else q
  | none => d

/-- The parsed JSON object the stamp-analysis prompt asks the model to
produce.  Truthiness of the two boolean-like fields is pre-computed;
absent or null fields are none. -/
structure ModelStampReply where
  stamp_detected : Bool
  stamp_text : Option String
  stamp_coordinates : Option (Int × Int × Int × Int)
  signature_detected : Bool
  signature_coordinates : Option (Int × Int × Int × Int)
  person_name : Option String
  date_found : Option String
  official_stamp_match : Bool
  matched_stamp_type : Option String
  confidence_score : Option ℚ

/-- The object every field reads as undefined: what the conversion step
sees when the parse-failure branch stored a fallbackTextAnalysis result
(whose keys are capitalized) in place of the snake-case model reply. -/
def undefinedReply : ModelStampReply :=
  { stamp_detected := false, stamp_text := none, stamp_coordinates := none,
    signature_detected := false, signature_coordinates := none,
    person_name := none, date_found := none, official_stamp_match := false,
    matched_stamp_type := none, confidence_score := none }

/-- The conversion step of analyzeWithOllama, translated line by line
from the construction of stampResult, signatureResult and the
validation fields. -/
def convertReply (r : ModelStampReply) : StampInnerResult :=
  { stamp :=
      { status := if r.stamp_detected then "Present" else "Absent"
        coordinates := r.stamp_coordinates
        type := if (jsStrOrNone r.stamp_text).isSome then some "official_stamp" else none
        confidence := some (jsNumOr r.confidence_score 0.7)
        extractedTextField := jsStrOrNone r.stamp_text
        personName := jsStrOrNone r.person_name
        date := jsStrOrNone r.date_found }
    signature :=
      { status := if r.signature_detected then "Present" else "Absent"
        coordinates := r.signature_coordinates
        confidence := some (jsNumOr r.confidence_score 0.7)
        personName := jsStrOrNone r.person_name
        date := jsStrOrNone r.date_found }
    stampValidation := if r.official_stamp_match then "Y" else "N"
    matchedStampType := jsStrOrNone r.matched_stamp_type
    personName := jsStrOrNone r.person_name
    date := jsStrOrNone r.date_found }

/-- Outcome of the stamp-analysis generate call. -/
inductive StampCallOutcome where
  | transportError : String → StampCallOutcome
  | emptyResponse : StampCallOutcome
  | unparseable : String → StampCallOutcome
  | parsed : ModelStampReply → StampCallOutcome

/-- Environment of one analyzeStampsAndSignatures invocation. -/
structure StampEnv where
  ollamaEnv : OllamaEnv
  stampB64 : Except String String
  stampCall : StampCallOutcome

/-- analyzeWithOllama of stampSignatureService.  The base64 conversion
sits outside the try block, so its failure propagates; a transport
failure or empty reply is caught and answered by fallbackTextAnalysis;
a reply in which no JSON object can be parsed makes the parse-failure
branch store a capitalized-key object that the conversion step then
reads as all-undefined. -/
def analyzeWithOllama (extractedText : String) (env : StampEnv) : Except String StampInnerResult :=
  match env.stampB64 with
  | .error m => .error m
  | .ok _ =>
      match env.stampCall with
      | .transportError _ => .ok (fallbackTextAnalysis extractedText)
      | .emptyResponse => .ok (fallbackTextAnalysis extractedText)
      | .unparseable _ => .ok (convertReply undefinedReply)
      | .parsed r => .ok (convertReply r)

/-- The defaulted result returned by the outer catch of
analyzeStampsAndSignatures. -/
def defaultStampResult : StampSignatureAnalysisResult :=
  { stamp := { status := "Absent", coordinates := none, type := none,
               confidence := none, extractedTextField := none,
               personName := none, date := none }
    signature := { status := "Absent", coordinates := none,
                   confidence := none, personName := none, date := none }
    stampValidation := "N"
    matchedStampType := none
    extractedText := none
    personName := none
    date := none }

/-- The body of analyzeStampsAndSignatures before its catch: extract
the text, then run the model analysis. -/
def analyzeStampsBody (env : StampEnv) : Except String StampSignatureAnalysisResult := do
  let tr ← extractTextFromDocument env.ollamaEnv
  let inner ← analyzeWithOllama tr.extractedText env
  pure { stamp := inner.stamp, signature := inner.signature,
         stampValidation := inner.stampValidation,
         matchedStampType := inner.matchedStampType,
         extractedText := some tr.extractedText,
         personName := inner.personName, date := inner.date }

/-- analyzeStampsAndSignatures of stampSignatureService: never raises;
any escaped failure is converted to the defaulted result. -/
def analyzeStampsAndSignatures (env : StampEnv) : StampSignatureAnalysisResult :=
  match analyzeStampsBody env with
  | .ok r => r
  | .error _ => defaultStampResult

/-! ## Template classifier and field extractor (openAIService) -/

/-- One field specification of a template. -/
structure TemplateField where
  id : String
  label : String
  type : String
  required : Bool
  options : Option (List String)
  deriving DecidableEq, Repr

/-- A document template of the catalog. -/
structure DocumentType where
  id : String
  name : String
  category : String
  template : List TemplateField
  deriving DecidableEq, Repr

/-- A field value as stored in the extracted-fields object: a string or
null. -/
inductive FieldValue where
  | str : String → FieldValue
  | null : FieldValue
  deriving DecidableEq, Repr

/-- The extracted-fields object, with JavaScript object semantics:
setting an existing key updates it in place, a new key is appended. -/
def objSet : List (String × FieldValue) → String → FieldValue → List (String × FieldValue)
  | [], k, v => [(k, v)]
  | (k0, v0) :: t, k, v =>
      if k0 = k then (k0, v) :: t else (k0, v0) :: objSet t k v

/-- Lookup in the extracted-fields object. -/
def objGet : List (String × FieldValue) → String → Option FieldValue
  | [], _ => none
  | (k0, v0) :: t, k => if k0 = k then some v0 else objGet t k

/-- Key-membership test of the extracted-fields object. -/
def objMem (m : List (String × FieldValue)) (k : String) : Bool := (objGet m k).isSome

/-- The type default of a template field: empty string for text and
textarea, null for number and date, the first option (or empty string)
for select, empty string otherwise. -/
def defaultFieldValue (f : TemplateField) : FieldValue :=
  if f.type = "text" ∨ f.type = "textarea" then .str ""
  else if f.type = "number" then .null
  else if f.type = "date" then .null
  else if f.type = "select" then
    match f.options with
    | some (o :: _) => if o = "" then .str "" else .str o
    | _ => .str ""
  else .str ""

/-- A detail row of the extraction reply. -/
structure FieldMappingDetail where
  fieldId : String
  fieldLabel : String
  extractedValue : FieldValue
  confidence : ℚ
  source : String
  deriving DecidableEq, Repr

/-- One step of ensureAllFieldsPresent: add the type default when the
field id is not yet a key. -/
def ensureStep (m : List (String × FieldValue)) (f : TemplateField) :
    List (String × FieldValue) :=
  if objMem m f.id then m else objSet m f.id (defaultFieldValue f)

/-- ensureAllFieldsPresent of openAIService: complete the extracted
fields with a type default for every template field id not present. -/
def ensureAllFieldsPresent (extractedFields : List (String × FieldValue))
    (template : DocumentType) : List (String × FieldValue) :=
  template.template.foldl ensureStep extractedFields

/-- The labeled name pattern of extractFieldsBasic. -/
def fieldNamePattern : RE := anyOf ["name", "officer", "recipient", "श्री", "sri"]
  (sStar (optC (· == ':') (sStar (capPlus (fun c => asciiLetter c || isJsSpace c) .nil))))

/-- The labeled station pattern of extractFieldsBasic. -/
def stationPattern : RE := anyOf ["station", "police", "थाना"]
  (sStar (optC (· == ':') (sStar (capPlus (fun c => asciiLetter c || isJsSpace c) .nil))))

/-- The labeled rank pattern of extractFieldsBasic. -/
def rankPattern : RE := anyOf ["rank", "पद"]
  (sStar (optC (· == ':') (sStar (capPlus (fun c => asciiLetter c || isJsSpace c) .nil))))

/-- The ordered labeled pattern list of extractFieldsBasic. -/
def basicPatterns : List (String × RE) :=
  [("name", fieldNamePattern), ("date", datePattern),
   ("station", stationPattern), ("rank", rankPattern)]

/-- The field-initialization step of extractFieldsBasic: set the type
default unconditionally. -/
def initFieldsStep (m : List (String × FieldValue)) (f : TemplateField) :
    List (String × FieldValue) :=
  objSet m f.id (defaultFieldValue f)

/-- The predicate locating the first template field whose label or id
contains a pattern key. -/
def fieldMatchesKey (key : String) (f : TemplateField) : Bool :=
  strIncludes (strLower f.label) key || strIncludes (strLower f.id) key

/-- One labeled-pattern step of extractFieldsBasic: when the pattern
matches with a truthy capture, assign the trimmed capture to the first
template field whose label or id contains the key. -/
def patStep (text : String) (template : DocumentType)
    (m : List (String × FieldValue)) (kp : String × RE) : List (String × FieldValue) :=
  match reCapture kp.2 text with
  | some cap =>
      if cap.isEmpty then m
      else
        match template.template.find? (fieldMatchesKey kp.1) with
        | some f => objSet m f.id (.str (jsTrim (String.mk cap)))
        | none => m
  | none => m

/-- extractFieldsBasic of openAIService: initialize every template
field to its type default, then assign each labeled pattern match
(trimmed) to the first template field whose label or id contains the
pattern key. -/
def extractFieldsBasic (text : String) (template : DocumentType) : List (String × FieldValue) :=
  basicPatterns.foldl (patStep text template)
    (template.template.foldl initFieldsStep [])

/-- The curated extra keywords keyed on the template id. -/
def curatedKeywords (id : String) : List String :=
  if id = "transfer" then ["transfer", "posting", "station", "order"]
  else if id = "award" then ["award", "certificate", "recognition", "medal"]
  else if id = "complaint" then ["complaint", "grievance", "disciplinary"]
  else []

/-- getTemplateKeywords of openAIService: template name words, the
category, field label words and the curated list, deduplicated keeping
first occurrences. -/
def getTemplateKeywords (template : DocumentType) : List String :=
  (jsSplitSpace (strLower template.name)
    ++ [strLower template.category]
    ++ template.template.flatMap (fun f => jsSplitSpace (strLower f.label))
    ++ curatedKeywords template.id).eraseDups

/-- Number of template keywords the lowercased text contains. -/
def templateMatchCount (textLower : String) (template : DocumentType) : Nat :=
  ((getTemplateKeywords template).filter
    (fun keyword => strIncludes textLower (strLower keyword))).length

/-- The body of the keyword-matching loop of createFallbackAnalysis:
the first template with a positive match count wins. -/
def keywordMatchPair (textLower : String) (t : DocumentType) : Option (DocumentType × Nat) :=
  let mc := templateMatchCount textLower t
  if mc > 0 then some (t, mc) else none

/-- Full analysis result of openAIService. -/
structure OpenAIAnalysisResult where
  documentType : String
  confidence : ℚ
  reasoning : String
  extractedFields : List (String × FieldValue)
  templateMatch : Option DocumentType
  fieldMappingDetails : List FieldMappingDetail
  deriving DecidableEq, Repr

/-- createFallbackAnalysis of openAIService: keyword-overlap template
selection plus basic pattern extraction.  On the empty catalog the
source reads the first element of an empty array and then dereferences
undefined, which raises; that raise is modelled by none. -/
def createFallbackAnalysis (text : String) (templates : List DocumentType) :
    Option OpenAIAnalysisResult :=
  match templates with
  | [] => none
  | t0 :: _ =>
      let textLower := strLower text
      let firstMatch := templates.findSome? (keywordMatchPair textLower)
      let bestTemplate := match firstMatch with
        | some (t, _) => t
        | none => t0
      let confidence : ℚ := match firstMatch with
        | some (_, mc) => min 0.8 (0.5 + mc * 0.1)
        | none => 0.5
      some { documentType := bestTemplate.name
             confidence := confidence
             reasoning := "Fallback analysis using keyword matching and pattern recognition"
             extractedFields := extractFieldsBasic text bestTemplate
             templateMatch := some bestTemplate
             fieldMappingDetails := [] }

/-- Inner result of the field-extraction stage. -/
structure FieldExtractionInner where
  documentType : String
  confidence : ℚ
  reasoning : String
  extractedFields : List (String × FieldValue)
  fieldMappingDetails : List FieldMappingDetail
  deriving DecidableEq, Repr

/-- createFallbackFieldExtraction of openAIService: basic pattern
extraction at the fixed conservative confidence. -/
def createFallbackFieldExtraction (text : String) (template : DocumentType) :
    FieldExtractionInner :=
  { documentType := template.name
    confidence := 0.6
    reasoning := "Fallback field extraction using pattern matching"
    extractedFields := extractFieldsBasic text template
    fieldMappingDetails := [] }

/-- The parsed JSON object the extraction prompt asks the model to
produce. -/
structure ModelExtractionReply where
  documentType : Option String
  confidence : Option ℚ
  reasoning : Option String
  extractedFields : List (String × FieldValue)
  fieldMappingDetails : Option (List FieldMappingDetail)

/-- JavaScript short-circuit or with a string default: an absent or
empty string is replaced by the default. -/
def jsStrOr (o : Option String) (d : String) : String :=
  match o with
  | some s => if s = "" then d else s
  | none => d

/-- Outcome of the chat-completion call of extractFieldsForTemplate. -/
inductive ExtractOutcome where
  | failure : String → ExtractOutcome
  | parsed : ModelExtractionReply → ExtractOutcome

/-- extractFieldsForTemplate of openAIService: on transport or parse
failure fall back to createFallbackFieldExtraction; on a parsed reply
complete the extracted fields with ensureAllFieldsPresent. -/
def extractFieldsForTemplate (text : String) (template : DocumentType)
    (outcome : ExtractOutcome) : FieldExtractionInner :=
  match outcome with
  | .failure _ => createFallbackFieldExtraction text template
  | .parsed r =>
      { documentType := jsStrOr r.documentType template.name
        confidence := jsNumOr r.confidence 0.7
        reasoning := jsStrOr r.reasoning "Automated field extraction completed"
        extractedFields := ensureAllFieldsPresent r.extractedFields template
        fieldMappingDetails := r.fieldMappingDetails.getD [] }

/-- Outcome of the chat-completion call of findBestTemplate. -/
inductive ClassifyOutcome where
  | failure : String → ClassifyOutcome
  | classified : String → ℚ → String → ClassifyOutcome

/-- findBestTemplate of openAIService: resolve the model-returned id
against the catalog; on any failure the catch returns the first
template of the catalog (or null when the catalog is empty). -/
def findBestTemplate (templates : List DocumentType) (outcome : ClassifyOutcome) :
    Option DocumentType :=
  match outcome with
  | .classified bestTemplateId _ _ => templates.find? (fun t => t.id = bestTemplateId)
  | .failure _ => templates.head?

/-- analyzeDocument of openAIService: classification followed by field
extraction, with the keyword fallback when no template resolved.  When
the catalog is empty the fallback raises, the outer catch runs the same
fallback again and the second raise escapes to the caller; none models
that escape. -/
def analyzeDocument (text : String) (templates : List DocumentType)
    (classifyOutcome : ClassifyOutcome) (extractOutcome : ExtractOutcome) :
    Option OpenAIAnalysisResult :=
  match findBestTemplate templates classifyOutcome with
  | none => createFallbackAnalysis text templates
  | some templateMatch =>
      let fr := extractFieldsForTemplate text templateMatch extractOutcome
      some { documentType := fr.documentType
             confidence := fr.confidence
             reasoning := fr.reasoning
             extractedFields := fr.extractedFields
             templateMatch := some templateMatch
             fieldMappingDetails := fr.fieldMappingDetails }

/-! ### Service state, for the purity statements

The fallback helpers live on a service object holding the api key, the
base url and the audit sink; the wrappers below make that surrounding
state explicit so that independence from it can be stated. -/

/-- One audit record written through securityService.logAction. -/
structure AuditEntry where
  userId : String
  action : String
  resource : String
  target : String
  deriving DecidableEq, Repr

/-- The state surrounding openAIService calls. -/
structure ServiceState where
  apiKey : String
  baseUrl : String
  auditLog : List AuditEntry
  deriving DecidableEq, Repr

/-- createFallbackAnalysis as it runs on the service object: the result
is computed from text and catalog alone, and one audit entry is
appended. -/
def createFallbackAnalysisSt (st : ServiceState) (text : String)
    (templates : List DocumentType) (userId : String) :
    Option OpenAIAnalysisResult × ServiceState :=
  (createFallbackAnalysis text templates,
   { st with auditLog := st.auditLog ++
      [{ userId := userId, action := "openai_fallback_analysis",
         resource := "document", target := "text_analysis" }] })

/-- createFallbackFieldExtraction as it runs on the service object: it
performs no service access at all. -/
def createFallbackFieldExtractionSt (st : ServiceState) (text : String)
    (template : DocumentType) : FieldExtractionInner × ServiceState :=
  (createFallbackFieldExtraction text template, st)

/-! ## The spec-side confidence formula

Transcribed from the specification sentence describing the extraction
confidence, for comparison with the implementation. -/

/-- The confidence formula as the specification states it: start at
0.7, add 0.1 for length over 100, 0.1 for length over 500, subtract
0.2 for length under 20, add 0.05 for a digit together with a letter,
0.05 for punctuation, 0.02 per distinct domain keyword, clamp to the
unit interval. -/
def specConfidenceFormula (text : String) : ℚ :=
  let base : ℚ := 0.7
    + (if text.length > 100 then 0.1 else 0)
    + (if text.length > 500 then 0.1 else 0)
    - (if text.length < 20 then 0.2 else 0)
    + (if text.data.any digitCh && text.data.any asciiLetter then 0.05 else 0)
    + (if text.data.any punctCh then 0.05 else 0)
    + keywordMatchCount text * 0.02
  min (max base 0) 1

/-! ## Concrete inputs used by the claim witnesses -/

/-- The registered text of stamp 1, as used in the scenario section of
the specification. -/
def stamp1Text : String := "OFFICER COMMANDING 14th BN A.P.S.P. ANANTHAPURAMU"

/-- A text longer than 500 characters containing a digit, letters,
punctuation and exactly three domain keywords. -/
def longKeywordRichText : String :=
  String.mk (List.replicate 490 'x' ++ ("date name officer 1.".data))

/-- A catalog entry whose keywords do not mention beta. -/
def alphaTemplate : DocumentType :=
  { id := "a", name := "Alpha", category := "cata", template := [] }

/-- A catalog entry matched by the word beta. -/
def betaTemplate : DocumentType :=
  { id := "b", name := "Beta", category := "catb", template := [] }

/-- A degenerate catalog entry with empty name and category, whose
derived keyword list is the singleton empty keyword. -/
def emptyNameTemplate : DocumentType :=
  { id := "t", name := "", category := "", template := [] }

/-- A one-field template used by the field-map witnesses. -/
def oneFieldTemplate : DocumentType :=
  { id := "tpl", name := "Tpl", category := "cat",
    template := [{ id := "a", label := "A", type := "text", required := true, options := none }] }

/-- A small leave-letter template used by the extraction witnesses. -/
def leaveTemplate : DocumentType :=
  { id := "leave", name := "Leave Letter", category := "leave",
    template :=
      [{ id := "officerName", label := "Officer Name", type := "text", required := true, options := none },
       { id := "fromDate", label := "From Date", type := "date", required := true, options := none },
       { id := "days", label := "Day Count", type := "number", required := false, options := none },
       { id := "leaveKind", label := "Kind", type := "select", required := true,
         options := some ["Casual", "Earned"] }] }

/-- A model reply that reports a stamp but denies a registry match. -/
def noMatchReply : ModelStampReply :=
  { stamp_detected := true, stamp_text := some "round seal", stamp_coordinates := some (1, 2, 3, 4),
    signature_detected := false, signature_coordinates := none, person_name := none,
    date_found := none, official_stamp_match := false, matched_stamp_type := none,
    confidence_score := some 0.9 }

/-- An analyzer run in which the extracted text carries stamp 1 while
the model denies the match. -/
def registryBypassEnv : StampEnv :=
  { ollamaEnv := { fileB64 := .ok "b64", vision := .text stamp1Text },
    stampB64 := .ok "b64", stampCall := .parsed noMatchReply }

/-- An analyzer run whose stamp-analysis call fails at transport after
a successful keyword-bearing extraction. -/
def heuristicEnv : StampEnv :=
  { ollamaEnv := { fileB64 := .ok "b64", vision := .text "officer seal present" },
    stampB64 := .ok "b64", stampCall := .transportError "connection refused" }

/-- An analyzer run whose text extraction fails outright. -/
def failingExtractionEnv : StampEnv :=
  { ollamaEnv := { fileB64 := .error "boom", vision := .text "x" },
    stampB64 := .ok "b64", stampCall := .emptyResponse }

/-- A model reply whose confidence score lies outside the unit
interval. -/
def overconfidentReply : ModelStampReply :=
  { stamp_detected := true, stamp_text := none, stamp_coordinates := none,
    signature_detected := false, signature_coordinates := none, person_name := none,
    date_found := none, official_stamp_match := false, matched_stamp_type := none,
    confidence_score := some 2 }

/-- An analyzer run that receives the overconfident reply. -/
def overconfidentEnv : StampEnv :=
  { ollamaEnv := { fileB64 := .ok "b64", vision := .text "t" },
    stampB64 := .ok "b64", stampCall := .parsed overconfidentReply }

/-! ## Lemmas about the extracted-fields object -/

theorem objGet_objSet_self (m : List (String × FieldValue)) (k : String) (v : FieldValue) :
    objGet (objSet m k v) k = some v := by
  induction m with
  | nil => simp [objSet, objGet]
  | cons p t ih =>
      by_cases h : p.1 = k
      · cases p
        simp_all [objSet, objGet]
      · cases p
        simp_all [objSet, objGet]

theorem objGet_objSet_ne (m : List (String × FieldValue)) (k k2 : String) (v : FieldValue)
    (h : ¬ k = k2) : objGet (objSet m k v) k2 = objGet m k2 := by
  induction m with
  | nil => simp [objSet, objGet, h]
  | cons p t ih =>
      by_cases hp : p.1 = k
      · cases p
        simp_all [objSet, objGet]
      · cases p
        simp_all [objSet, objGet]

theorem objMem_objSet (m : List (String × FieldValue)) (k k2 : String) (v : FieldValue) :
    objMem (objSet m k v) k2 = true ↔ (k2 = k ∨ objMem m k2 = true) := by
  by_cases h : k = k2
  · subst h
    simp [objMem, objGet_objSet_self]
  · simp [objMem, objGet_objSet_ne m k k2 v h]
    intro hk
    exact absurd hk.symm h

/-! ### Lemmas about the completion fold -/

theorem ensureFold_mem_mono (fs : List TemplateField) (m : List (String × FieldValue))
    (k : String) (h : objMem m k = true) : objMem (fs.foldl ensureStep m) k = true := by
  induction fs generalizing m with
  | nil => simpa using h
  | cons f t ih =>
      simp only [List.foldl_cons]
      apply ih
      unfold ensureStep
      split
      · exact h
      · exact (objMem_objSet m f.id k (defaultFieldValue f)).2 (Or.inr h)

theorem ensureFold_get_mono (fs : List TemplateField) (m : List (String × FieldValue))
    (k : String) (h : objMem m k = true) : objGet (fs.foldl ensureStep m) k = objGet m k := by
  induction fs generalizing m with
  | nil => simp
  | cons f t ih =>
      simp only [List.foldl_cons]
      rw [ih]
      · unfold ensureStep
        split
        · rfl
        · rename_i hmem
          have hne : ¬ f.id = k := by
            intro he
            rw [he] at hmem
            simp [h] at hmem
          exact objGet_objSet_ne m f.id k (defaultFieldValue f) hne
      · unfold ensureStep
        split
        · exact h
        · exact (objMem_objSet m f.id k (defaultFieldValue f)).2 (Or.inr h)

theorem ensureFold_mem (fs : List TemplateField) (m : List (String × FieldValue))
    (f : TemplateField) (h : f ∈ fs) : objMem (fs.foldl ensureStep m) f.id = true := by
  induction fs generalizing m with
  | nil => cases h
  | cons g t ih =>
      simp only [List.foldl_cons]
      rcases List.mem_cons.1 h with hf | hf
      · subst hf
        apply ensureFold_mem_mono
        unfold ensureStep
        split
        · assumption
        · exact (objMem_objSet m f.id f.id (defaultFieldValue f)).2 (Or.inl rfl)
      · exact ih _ hf

theorem ensureFold_get_absent (fs : List TemplateField) (m : List (String × FieldValue))
    (f : TemplateField) (hnd : (fs.map TemplateField.id).Nodup) (hf : f ∈ fs)
    (habs : objMem m f.id = false) :
    objGet (fs.foldl ensureStep m) f.id = some (defaultFieldValue f) := by
  induction fs generalizing m with
  | nil => cases hf
  | cons g t ih =>
      simp only [List.foldl_cons]
      rcases List.mem_cons.1 hf with hfg | hft
      · subst hfg
        rw [ensureFold_get_mono]
        · unfold ensureStep
          rw [habs]
          simp only [Bool.false_eq_true, if_false]
          exact objGet_objSet_self m f.id (defaultFieldValue f)
        · unfold ensureStep
          rw [habs]
          simp only [Bool.false_eq_true, if_false]
          exact (objMem_objSet m f.id f.id (defaultFieldValue f)).2 (Or.inl rfl)
      · have hne : ¬ g.id = f.id := by
          intro he
          have : f.id ∈ t.map TemplateField.id := List.mem_map_of_mem TemplateField.id hft
          rw [← he] at this
          exact (List.nodup_cons.1 hnd).1 this
        apply ih _ (List.nodup_cons.1 hnd).2 hft
        unfold ensureStep
        split
        · exact habs
        · rw [← habs]
          cases hmem : objMem (objSet m g.id (defaultFieldValue g)) f.id
          · cases hmem2 : objMem m f.id
            · rfl
            · rw [(objMem_objSet m g.id f.id (defaultFieldValue g)).2 (Or.inr hmem2)] at hmem
              cases hmem
          · rcases (objMem_objSet m g.id f.id (defaultFieldValue g)).1 hmem with he | hm
            · exact absurd he.symm hne
            · rw [hm]

/-! ### Lemmas about the initialization fold -/

theorem initFold_mem_mono (fs : List TemplateField) (m : List (String × FieldValue))
    (k : String) (h : objMem m k = true) : objMem (fs.foldl initFieldsStep m) k = true := by
  induction fs generalizing m with
  | nil => simpa using h
  | cons f t ih =>
      simp only [List.foldl_cons]
      exact ih _ ((objMem_objSet m f.id k (defaultFieldValue f)).2 (Or.inr h))

theorem initFold_mem (fs : List TemplateField) (m : List (String × FieldValue))
    (f : TemplateField) (h : f ∈ fs) : objMem (fs.foldl initFieldsStep m) f.id = true := by
  induction fs generalizing m with
  | nil => cases h
  | cons g t ih =>
      simp only [List.foldl_cons]
      rcases List.mem_cons.1 h with hf | hf
      · subst hf
        exact initFold_mem_mono t _ f.id
          ((objMem_objSet m f.id f.id (defaultFieldValue f)).2 (Or.inl rfl))
      · exact ih _ hf

theorem initFold_keys (fs : List TemplateField) (m : List (String × FieldValue)) (k : String)
    (h : objMem (fs.foldl initFieldsStep m) k = true) :
    objMem m k = true ∨ k ∈ fs.map TemplateField.id := by
  induction fs generalizing m with
  | nil => exact Or.inl (by simpa using h)
  | cons g t ih =>
      simp only [List.foldl_cons] at h
      rcases ih _ h with hm | hk
      · rcases (objMem_objSet m g.id k (defaultFieldValue g)).1 hm with he | hm2
        · exact Or.inr (by simp [he])
        · exact Or.inl hm2
      · exact Or.inr (List.mem_cons_of_mem _ hk)

theorem initFold_get_notin (fs : List TemplateField) (m : List (String × FieldValue))
    (k : String) (h : ¬ k ∈ fs.map TemplateField.id) :
    objGet (fs.foldl initFieldsStep m) k = objGet m k := by
  induction fs generalizing m with
  | nil => simp
  | cons g t ih =>
      simp only [List.foldl_cons]
      have hgk : ¬ g.id = k := fun he => h (by simp [he])
      rw [ih _ (fun hk => h (List.mem_cons_of_mem _ hk))]
      exact objGet_objSet_ne m g.id k (defaultFieldValue g) hgk

theorem initFold_get (fs : List TemplateField) (m : List (String × FieldValue))
    (f : TemplateField) (hnd : (fs.map TemplateField.id).Nodup) (hf : f ∈ fs) :
    objGet (fs.foldl initFieldsStep m) f.id = some (defaultFieldValue f) := by
  induction fs generalizing m with
  | nil => cases hf
  | cons g t ih =>
      simp only [List.foldl_cons]
      rcases List.mem_cons.1 hf with hfg | hft
      · subst hfg
        rw [initFold_get_notin t _ f.id (List.nodup_cons.1 hnd).1]
        exact objGet_objSet_self m f.id (defaultFieldValue f)
      · exact ih _ (List.nodup_cons.1 hnd).2 hft

/-! ### Lemmas about the labeled-pattern fold -/

theorem patStep_mem_mono (text : String) (tm : DocumentType)
    (m : List (String × FieldValue)) (kp : String × RE) (k : String)
    (h : objMem m k = true) : objMem (patStep text tm m kp) k = true := by
  unfold patStep
  split
  · split
    · exact h
    · split
      · exact (objMem_objSet m _ k _).2 (Or.inr h)
      · exact h
  · exact h

theorem patFold_mem_mono (ps : List (String × RE)) (text : String) (tm : DocumentType)
    (m : List (String × FieldValue)) (k : String) (h : objMem m k = true) :
    objMem (ps.foldl (patStep text tm) m) k = true := by
  induction ps generalizing m with
  | nil => simpa using h
  | cons kp t ih =>
      simp only [List.foldl_cons]
      exact ih _ (patStep_mem_mono text tm m kp k h)

theorem patStep_keys (text : String) (tm : DocumentType)
    (m : List (String × FieldValue)) (kp : String × RE) (k : String)
    (h : objMem (patStep text tm m kp) k = true) :
    objMem m k = true ∨ ∃ f ∈ tm.template, k = f.id := by
  unfold patStep at h
  split at h
  · split at h
    · exact Or.inl h
    · split at h
      · rename_i f hfind
        rcases (objMem_objSet m f.id k _).1 h with he | hm
        · exact Or.inr ⟨f, List.mem_of_find?_eq_some hfind, he⟩
        · exact Or.inl hm
      · exact Or.inl h
  · exact Or.inl h

theorem patFold_keys (ps : List (String × RE)) (text : String) (tm : DocumentType)
    (m : List (String × FieldValue)) (k : String)
    (h : objMem (ps.foldl (patStep text tm) m) k = true) :
    objMem m k = true ∨ ∃ f ∈ tm.template, k = f.id := by
  induction ps generalizing m with
  | nil => exact Or.inl (by simpa using h)
  | cons kp t ih =>
      simp only [List.foldl_cons] at h
      rcases ih _ h with hm | hk
      · exact patStep_keys text tm m kp k hm
      · exact Or.inr hk

theorem patStep_get_unmatched (text : String) (tm : DocumentType)
    (m : List (String × FieldValue)) (kp : String × RE) (f : TemplateField)
    (hnd : (tm.template.map TemplateField.id).Nodup) (hf : f ∈ tm.template)
    (hno : fieldMatchesKey kp.1 f = false) :
    objGet (patStep text tm m kp) f.id = objGet m f.id := by
  unfold patStep
  split
  · split
    · rfl
    · split
      · rename_i f2 hfind
        have hf2 : f2 ∈ tm.template := List.mem_of_find?_eq_some hfind
        have hp2 : fieldMatchesKey kp.1 f2 = true := List.find?_some hfind
        have hne : ¬ f2.id = f.id := by
          intro he
          have : f2 = f := List.inj_on_of_nodup_map hnd hf2 hf he
          rw [this] at hp2
          rw [hno] at hp2
          cases hp2
        exact objGet_objSet_ne m f2.id f.id _ hne
      · rfl
  · rfl

theorem patFold_get_unmatched (ps : List (String × RE)) (text : String) (tm : DocumentType)
    (m : List (String × FieldValue)) (f : TemplateField)
    (hnd : (tm.template.map TemplateField.id).Nodup) (hf : f ∈ tm.template)
    (hno : ∀ kp ∈ ps, fieldMatchesKey kp.1 f = false) :
    objGet (ps.foldl (patStep text tm) m) f.id = objGet m f.id := by
  induction ps generalizing m with
  | nil => simp
  | cons kp t ih =>
      simp only [List.foldl_cons]
      rw [ih _ (fun q hq => hno q (List.mem_cons_of_mem _ hq))]
      exact patStep_get_unmatched text tm m kp f hnd hf (hno kp (List.mem_cons_self _ _))

/-- On the empty text none of the four labeled patterns matches. -/
theorem reCapture_basic_empty : ∀ kp ∈ basicPatterns, reCapture kp.2 "" = none := by
  decide

/-- On the empty text extractFieldsBasic returns exactly the
initialization fold. -/
theorem extractFieldsBasic_empty (template : DocumentType) :
    extractFieldsBasic "" template = template.template.foldl initFieldsStep [] := by
  unfold extractFieldsBasic
  have h1 : reCapture fieldNamePattern "" = none := by decide
  have h2 : reCapture datePattern "" = none := by decide
  have h3 : reCapture stationPattern "" = none := by decide
  have h4 : reCapture rankPattern "" = none := by decide
  simp [basicPatterns, patStep, h1, h2, h3, h4]

/-! ## Auxiliary facts about strings and confidence -/

theorem strLengthZeroEq (s : String) (h : s.length = 0) : s = "" := by
  cases s with
  | mk data =>
      cases data with
      | nil => rfl
      | cons a t => simp [String.length] at h

set_option maxHeartbeats 2000000 in
theorem calculateConfidence_half (text : String) (h : ¬ text.length = 0) :
    1 / 2 ≤ calculateConfidence text := by
  have h0 : (text.length == 0) = false := by simpa using h
  unfold calculateConfidence
  rw [h0]
  simp only [Bool.false_eq_true, if_false]
  have hkm : (0 : ℚ) ≤ (keywordMatchCount text : ℚ) * 0.02 := by positivity
  refine le_min ?_ (by norm_num)
  refine le_trans ?_ (le_max_left _ _)
  split_ifs <;> linarith

/-! ## The claims -/

set_option maxRecDepth 20000 in
/-- C1, counterexample: the extracted text matches the registry pattern
of stamp 1 and the local heuristic validates it, yet on the model-based
primary path the analyzer reports validation N with no matched stamp
name, because the primary path trusts the model's official-stamp-match
flag and never re-runs the registry test. -/
theorem C1_counterexample :
    reTest stamp1Pattern stamp1Text = true ∧
    (fallbackTextAnalysis stamp1Text).stampValidation = "Y" ∧
    (analyzeStampsAndSignatures registryBypassEnv).stampValidation = "N" ∧
    (analyzeStampsAndSignatures registryBypassEnv).matchedStampType = none := by
  refine ⟨by decide, by decide, by decide, by decide⟩

/-- C1, amended: on the local heuristic fallback path, whenever the raw
extracted text matches the pattern of the first matching record of the
stamp registry, the result is validated with that record's name; on the
model-based primary path validation instead follows the model's own
report. -/
theorem C1_theorem : ∀ text n,
    (OFFICIAL_STAMP_MASTER_LIST.find? (fun s => reTest s.pattern text)).map StampRecord.name
      = some n →
    (fallbackTextAnalysis text).stampValidation = "Y" ∧
    (fallbackTextAnalysis text).matchedStampType = some n := by
  intro text n h
  cases hf : OFFICIAL_STAMP_MASTER_LIST.find? (fun s => reTest s.pattern text) with
  | none => rw [hf] at h; cases h
  | some r =>
      rw [hf] at h
      simp only [Option.map_some', Option.some.injEq] at h
      constructor
      · simp [fallbackTextAnalysis, hf]
      · simp [fallbackTextAnalysis, hf, h]

set_option maxRecDepth 20000 in
/-- C1, witness: the registered stamp 1 text validates on the fallback
path with the registered name. -/
theorem C1_witness :
    (fallbackTextAnalysis stamp1Text).stampValidation = "Y" ∧
    (fallbackTextAnalysis stamp1Text).matchedStampType =
      some "OFFICER COMMANDING 14th BN A.P.S.P. ANANTHAPURAMU" :=
  C1_theorem stamp1Text "OFFICER COMMANDING 14th BN A.P.S.P. ANANTHAPURAMU" (by decide)

/-- C2, counterexample: on the primary path a model reply holding an
extra key not in the template survives the completion step, so the
field map does not contain exactly the template field ids. -/
theorem C2_counterexample :
    (extractFieldsForTemplate "t" oneFieldTemplate (.parsed
        { documentType := none, confidence := none, reasoning := none,
          extractedFields := [("zzz", .str "x")], fieldMappingDetails := none })).extractedFields
      = [("zzz", FieldValue.str "x"), ("a", FieldValue.str "")] ∧
    oneFieldTemplate.template.map TemplateField.id = ["a"] := ⟨rfl, rfl⟩

/-- C2, amended: on every path the field map contains at least the keys
of the template fields; every template field absent from the parsed
model output is filled with its type default (for templates with
distinct field ids); and on the fallback path the keys are exactly the
template field ids. -/
theorem C2_theorem :
    (∀ text template outcome f, f ∈ template.template →
        objMem (extractFieldsForTemplate text template outcome).extractedFields f.id = true) ∧
    (∀ text template r f, (template.template.map TemplateField.id).Nodup →
        f ∈ template.template → objMem r.extractedFields f.id = false →
        objGet (extractFieldsForTemplate text template (.parsed r)).extractedFields f.id
          = some (defaultFieldValue f)) ∧
    (∀ text template k, objMem (extractFieldsBasic text template) k = true →
        k ∈ template.template.map TemplateField.id) := by
  refine ⟨?_, ?_, ?_⟩
  · intro text template outcome f hf
    cases outcome with
    | parsed r =>
        show objMem (ensureAllFieldsPresent r.extractedFields template) f.id = true
        exact ensureFold_mem _ _ f hf
    | failure m =>
        show objMem (extractFieldsBasic text template) f.id = true
        unfold extractFieldsBasic
        exact patFold_mem_mono _ _ _ _ _ (initFold_mem _ _ f hf)
  · intro text template r f hnd hf habs
    show objGet (ensureAllFieldsPresent r.extractedFields template) f.id
      = some (defaultFieldValue f)
    exact ensureFold_get_absent _ _ f hnd hf habs
  · intro text template k h
    unfold extractFieldsBasic at h
    rcases patFold_keys _ _ _ _ _ h with hm | ⟨f, hfm, hk⟩
    · rcases initFold_keys _ _ _ hm with h0 | hk
      · simp [objMem, objGet] at h0
      · exact hk
    · subst hk
      exact List.mem_map_of_mem _ hfm

/-- C2, witness: on a concrete template the completion guarantees hold:
a fallback run carries the date field, a parsed empty reply is
completed with the text default, and the basic extractor's keys come
from the template. -/
theorem C2_witness :
    objMem (extractFieldsForTemplate "" leaveTemplate (.failure "x")).extractedFields
      ({ id := "fromDate", label := "From Date", type := "date", required := true,
         options := none } : TemplateField).id = true ∧
    objGet (extractFieldsForTemplate "" oneFieldTemplate (.parsed
        { documentType := none, confidence := none, reasoning := none,
          extractedFields := [], fieldMappingDetails := none })).extractedFields
      ({ id := "a", label := "A", type := "text", required := true,
         options := none } : TemplateField).id
      = some (defaultFieldValue
          ({ id := "a", label := "A", type := "text", required := true,
             options := none } : TemplateField)) ∧
    "officerName" ∈ leaveTemplate.template.map TemplateField.id :=
  ⟨C2_theorem.1 "" leaveTemplate (.failure "x") _ (by decide),
   C2_theorem.2.1 "" oneFieldTemplate _ _ (by decide) (by decide) rfl,
   C2_theorem.2.2 "" leaveTemplate "officerName" (by decide)⟩

/-- C3, counterexample: on a transport failure the classifier's catch
selects the first template directly instead of running the
keyword-overlap fallback, which would have chosen the second template;
and on the empty catalog document analysis escapes with an exception
rather than returning a structured result. -/
theorem C3_counterexample :
    (analyzeDocument "beta beta" [alphaTemplate, betaTemplate]
        (.failure "net down") (.failure "net down")).map (fun r => r.templateMatch)
      = some (some alphaTemplate) ∧
    (createFallbackAnalysis "beta beta" [alphaTemplate, betaTemplate]).map
        (fun r => r.templateMatch) = some (some betaTemplate) ∧
    analyzeDocument "beta beta" [] (.failure "net down") (.failure "net down") = none := by
  refine ⟨by decide, by decide, rfl⟩

/-- C3, amended: for every non-empty catalog document analysis returns
a structured result and never throws, and on a transport or parse
failure of the classification call the chosen template is the first of
the catalog. -/
theorem C3_theorem :
    (∀ text templates co eo, ¬ templates = [] →
        (analyzeDocument text templates co eo).isSome = true) ∧
    (∀ text t0 rest m eo, ∃ r,
        analyzeDocument text (t0 :: rest) (.failure m) eo = some r ∧
        r.templateMatch = some t0) := by
  constructor
  · intro text templates co eo hne
    cases templates with
    | nil => exact absurd rfl hne
    | cons t0 rest =>
        cases co with
        | failure m => simp [analyzeDocument, findBestTemplate]
        | classified id conf reasoning =>
            unfold analyzeDocument findBestTemplate
            cases hf : (t0 :: rest).find? (fun t => t.id = id) with
            | some t => simp [hf]
            | none => simp [hf, createFallbackAnalysis]
  · intro text t0 rest m eo
    refine ⟨_, rfl, rfl⟩

/-- C3, witness: a concrete one-template catalog always yields a
result, and under transport failure the first template is selected. -/
theorem C3_witness :
    (analyzeDocument "x" [alphaTemplate] (.classified "zzz" 0.9 "r") (.failure "m")).isSome
      = true ∧
    ∃ r, analyzeDocument "x" (alphaTemplate :: []) (.failure "m") (.failure "m") = some r ∧
      r.templateMatch = some alphaTemplate :=
  ⟨C3_theorem.1 "x" [alphaTemplate] (.classified "zzz" 0.9 "r") (.failure "m") (by simp),
   C3_theorem.2 "x" alphaTemplate [] "m" (.failure "m")⟩

/-- C4, counterexample: when the vision service is unreachable,
extractTextFromDocument raises a wrapped error to its caller instead of
returning an empty-text, zero-confidence result. -/
theorem C4_counterexample :
    extractTextFromDocument { fileB64 := .ok "b64", vision := .unreachable "connection refused" }
      = .error "Ollama text extraction failed: connection refused" := rfl

/-- C4, amended: stage 1 propagates unreachability and missing reply
text as exceptions to its caller; the empty-text, zero-confidence
continuation is the caller's (the confidence of the empty text is 0). -/
theorem C4_theorem :
    (∀ env msg, env.vision = VisionOutcome.unreachable msg →
        ∃ m, extractTextFromDocument env = .error m) ∧
    (∀ env, env.vision = VisionOutcome.noTextField →
        ∃ m, extractTextFromDocument env = .error m) ∧
    calculateConfidence "" = 0 := by
  refine ⟨?_, ?_, rfl⟩
  · rintro ⟨fb, vis⟩ msg h
    dsimp only at h
    subst h
    cases fb with
    | error e => exact ⟨_, rfl⟩
    | ok b => exact ⟨_, rfl⟩
  · rintro ⟨fb, vis⟩ h
    dsimp only at h
    subst h
    cases fb with
    | error e => exact ⟨_, rfl⟩
    | ok b => exact ⟨_, rfl⟩

/-- C4, witness: a reply lacking the text field makes the extractor
raise. -/
theorem C4_witness :
    ∃ m, extractTextFromDocument { fileB64 := .ok "b64", vision := VisionOutcome.noTextField }
      = .error m :=
  C4_theorem.2.1 _ rfl

/-- C5, counterexample: on the model path the stamp confidence is taken
verbatim from the model's reply, so a reported score of 2 leaves the
unit interval. -/
theorem C5_counterexample :
    (analyzeStampsAndSignatures overconfidentEnv).stamp.confidence = some 2 ∧
    ¬ ((2 : ℚ) ≤ 1) := by
  refine ⟨?_, by norm_num⟩
  have h2 : jsNumOr (some 2) 0.7 = 2 := by unfold jsNumOr; norm_num
  show (convertReply overconfidentReply).stamp.confidence = some 2
  unfold convertReply overconfidentReply
  simp [h2]

set_option maxHeartbeats 1000000 in
/-- C5, amended: every locally computed confidence lies in the unit
interval and the extraction confidence is zero exactly on the empty
text; the model-path confidences are not locally clamped. -/
theorem C5_theorem :
    (∀ text, 0 ≤ calculateConfidence text ∧ calculateConfidence text ≤ 1) ∧
    (∀ text, calculateConfidence text = 0 ↔ text = "") ∧
    (∀ text, ∃ q1 q2, (fallbackTextAnalysis text).stamp.confidence = some q1 ∧
        (fallbackTextAnalysis text).signature.confidence = some q2 ∧
        0 ≤ q1 ∧ q1 ≤ 1 ∧ 0 ≤ q2 ∧ q2 ≤ 1) ∧
    (∀ text templates r, createFallbackAnalysis text templates = some r →
        0 ≤ r.confidence ∧ r.confidence ≤ 1) ∧
    (∀ text template, (createFallbackFieldExtraction text template).confidence = 0.6 ∧
        0 ≤ (0.6 : ℚ) ∧ (0.6 : ℚ) ≤ 1) := by
  refine ⟨?_, ?_, ?_, ?_, ?_⟩
  · intro text
    unfold calculateConfidence
    split
    · norm_num
    · exact ⟨le_min (le_max_right _ _) (by norm_num), min_le_right _ _⟩
  · intro text
    constructor
    · intro h
      by_contra hne
      have hl : ¬ text.length = 0 := by
        intro h0
        exact hne (strLengthZeroEq text h0)
      have := calculateConfidence_half text hl
      rw [h] at this
      norm_num at this
    · intro h
      subst h
      rfl
  · intro text
    refine ⟨_, _, rfl, rfl, ?_, ?_, ?_, ?_⟩ <;> split_ifs <;> norm_num
  · intro text templates r h
    cases templates with
    | nil => cases h
    | cons t0 rest =>
        simp only [createFallbackAnalysis] at h
        rcases hfm : (t0 :: rest).findSome? (keywordMatchPair (strLower text)) with _ | ⟨t, mc⟩ <;>
          rw [hfm] at h <;> simp only [Option.some.injEq] at h <;> subst h <;> dsimp only
        · norm_num
        · constructor
          · exact le_min (by norm_num) (by positivity)
          · exact le_trans (min_le_left _ _) (by norm_num)
  · intro text template
    exact ⟨rfl, by norm_num, by norm_num⟩

/-- C5, witness: the bounds hold at concrete inputs. -/
theorem C5_witness :
    0 ≤ calculateConfidence "abc" ∧ calculateConfidence "abc" ≤ 1 ∧
    (calculateConfidence "" = 0 ↔ ("" : String) = "") ∧
    ∃ r, createFallbackAnalysis "x" [alphaTemplate] = some r ∧
      0 ≤ r.confidence ∧ r.confidence ≤ 1 := by
  refine ⟨(C5_theorem.1 "abc").1, (C5_theorem.1 "abc").2, C5_theorem.2.1 "", ?_⟩
  cases hr : createFallbackAnalysis "x" [alphaTemplate] with
  | none => cases hr
  | some r => exact ⟨r, rfl, C5_theorem.2.2.2.1 "x" [alphaTemplate] r hr⟩

set_option maxHeartbeats 1000000 in
/-- C6: the locally computed extraction confidence follows the spec's
formula exactly on every non-empty text, and any text longer than 500
characters containing a digit, a letter, punctuation and exactly three
domain keywords scores exactly 1. -/
theorem C6_theorem :
    (∀ text, text.length ≠ 0 → calculateConfidence text = specConfidenceFormula text) ∧
    (∀ text, 500 < text.length → text.data.any digitCh = true →
      text.data.any asciiLetter = true → text.data.any punctCh = true →
      keywordMatchCount text = 3 → calculateConfidence text = 1) := by
  constructor
  · intro text h
    have h0 : (text.length == 0) = false := by simpa using h
    unfold calculateConfidence specConfidenceFormula
    rw [h0]
    simp only [Bool.false_eq_true, if_false]
    rcases Nat.eq_zero_or_pos (keywordMatchCount text) with hk | hk
    · rw [hk]
      split_ifs <;> norm_num
    · rw [if_pos hk]
      split_ifs <;> (try push_cast) <;> ring_nf
  · intro text h5 hd hl hp hk
    have h0 : (text.length == 0) = false := by simp; omega
    have h1 : text.length > 100 := by omega
    have h2 : ¬ (text.length < 20) := by omega
    unfold calculateConfidence
    rw [h0]
    simp only [Bool.false_eq_true, if_false, if_pos h1, if_pos h5, if_neg h2, hd, hl, hp, hk]
    norm_num

set_option maxRecDepth 20000 in
/-- C6, witness: a 510-character keyword-rich text scores exactly 1. -/
theorem C6_witness : calculateConfidence longKeywordRichText = 1 :=
  C6_theorem.2 longKeywordRichText (by decide) (by decide) (by decide) (by decide) (by decide)

/-- C7, counterexample: a catalog whose first template has an empty
name and category derives the empty keyword, which every text contains,
so the empty text is classified at confidence 0.6 rather than 0.5. -/
theorem C7_counterexample :
    (createFallbackAnalysis "" [emptyNameTemplate]).map (fun r => r.confidence)
      = some 0.6 ∧
    ¬ ((0.6 : ℚ) = 0.5) := by
  refine ⟨?_, by norm_num⟩
  have hk : templateMatchCount (strLower "") emptyNameTemplate = 1 := by decide
  have hfm : [emptyNameTemplate].findSome? (keywordMatchPair (strLower "")) =
      some (emptyNameTemplate, 1) := by
    simp [List.findSome?, keywordMatchPair, hk]
  simp only [createFallbackAnalysis, hfm]
  simp only [Option.map_some']
  norm_num

/-- C7, amended: the keyword fallback selects the first template with a
positive match count at confidence min(0.8, 0.5 + 0.1 times the count);
when no template matches it selects the first template at 0.5; the
empty text reaches the no-match case whenever every derived template
keyword is non-empty. -/
theorem C7_theorem :
    (∀ text t0 rest t mc,
        (t0 :: rest).findSome? (keywordMatchPair (strLower text)) = some (t, mc) →
        ∃ r, createFallbackAnalysis text (t0 :: rest) = some r ∧
          r.templateMatch = some t ∧ r.confidence = min (0.8 : ℚ) (0.5 + (mc : ℚ) * 0.1) ∧
          r.documentType = t.name) ∧
    (∀ text t0 rest,
        (∀ t, t ∈ t0 :: rest → templateMatchCount (strLower text) t = 0) →
        ∃ r, createFallbackAnalysis text (t0 :: rest) = some r ∧
          r.templateMatch = some t0 ∧ r.confidence = 0.5) ∧
    (∀ t0 rest,
        (∀ t, t ∈ t0 :: rest → ∀ kw, kw ∈ getTemplateKeywords t → ¬ kw = "") →
        ∃ r, createFallbackAnalysis "" (t0 :: rest) = some r ∧
          r.templateMatch = some t0 ∧ r.confidence = 0.5) := by
  have hnone : ∀ (text : String) (ts : List DocumentType),
      (∀ t, t ∈ ts → templateMatchCount (strLower text) t = 0) →
      ts.findSome? (keywordMatchPair (strLower text)) = none := by
    intro text ts h
    rw [List.findSome?_eq_none_iff]
    intro t ht
    unfold keywordMatchPair
    rw [h t ht]
    simp
  refine ⟨?_, ?_, ?_⟩
  · intro text t0 rest t mc hfm
    simp only [createFallbackAnalysis, hfm]
    exact ⟨_, rfl, rfl, rfl, rfl⟩
  · intro text t0 rest h
    simp only [createFallbackAnalysis, hnone text (t0 :: rest) h]
    exact ⟨_, rfl, rfl, rfl⟩
  · intro t0 rest h
    have hz : ∀ t, t ∈ t0 :: rest → templateMatchCount (strLower "") t = 0 := by
      intro t ht
      unfold templateMatchCount
      rw [List.length_eq_zero]
      rw [List.filter_eq_nil_iff]
      intro kw hkw
      have hne := h t ht kw hkw
      show ¬ strIncludes (strLower "") (strLower kw) = true
      cases kw with
      | mk kdata =>
          cases kdata with
          | nil => exact absurd rfl hne
          | cons a l => intro hh; cases hh
    simp only [createFallbackAnalysis, hnone "" (t0 :: rest) hz]
    exact ⟨_, rfl, rfl, rfl⟩

/-- C7, witness: beta selects the second template at 0.6 and the empty
text over a clean catalog selects the first template at 0.5. -/
theorem C7_witness :
    (∃ r, createFallbackAnalysis "beta" (alphaTemplate :: [betaTemplate]) = some r ∧
        r.templateMatch = some betaTemplate ∧
        r.confidence = min (0.8 : ℚ) (0.5 + ((1 : ℕ) : ℚ) * 0.1) ∧
        r.documentType = betaTemplate.name) ∧
    (∃ r, createFallbackAnalysis "" (alphaTemplate :: []) = some r ∧
        r.templateMatch = some alphaTemplate ∧ r.confidence = 0.5) :=
  ⟨C7_theorem.1 "beta" alphaTemplate [betaTemplate] betaTemplate 1 (by decide),
   C7_theorem.2.2 alphaTemplate [] (by decide)⟩

/-- C8: the pattern-fallback field extractor returns confidence exactly
0.6 with the basic extraction as its field map; on the empty text every
field keeps its type default; and a field whose label and id contain no
pattern key keeps its type default on every text (templates with
distinct field ids). -/
theorem C8_theorem :
    (∀ text template, (createFallbackFieldExtraction text template).confidence = 0.6 ∧
        (createFallbackFieldExtraction text template).extractedFields
          = extractFieldsBasic text template ∧
        (createFallbackFieldExtraction text template).documentType = template.name) ∧
    (∀ template f, (template.template.map TemplateField.id).Nodup →
        f ∈ template.template →
        objGet (extractFieldsBasic "" template) f.id = some (defaultFieldValue f)) ∧
    (∀ text template f, (template.template.map TemplateField.id).Nodup →
        f ∈ template.template →
        (∀ key, key ∈ basicPatterns.map Prod.fst → fieldMatchesKey key f = false) →
        objGet (extractFieldsBasic text template) f.id = some (defaultFieldValue f)) := by
  refine ⟨?_, ?_, ?_⟩
  · intro text template
    exact ⟨rfl, rfl, rfl⟩
  · intro template f hnd hf
    rw [extractFieldsBasic_empty]
    exact initFold_get _ _ f hnd hf
  · intro text template f hnd hf hno
    have hstep := patFold_get_unmatched basicPatterns text template
        (template.template.foldl initFieldsStep []) f hnd hf
        (fun kp hkp => hno kp.1 (List.mem_map_of_mem Prod.fst hkp))
    unfold extractFieldsBasic
    rw [hstep]
    exact initFold_get _ _ f hnd hf

/-- C8, witness: on the concrete leave template the defaults hold on
the empty text, the confidence is 0.6, and the select field is
untouched by the patterns on a matching text. -/
theorem C8_witness :
    (createFallbackFieldExtraction "" leaveTemplate).confidence = 0.6 ∧
    objGet (extractFieldsBasic "" leaveTemplate)
      ({ id := "days", label := "Day Count", type := "number", required := false,
         options := none } : TemplateField).id
      = some (defaultFieldValue
          ({ id := "days", label := "Day Count", type := "number", required := false,
             options := none } : TemplateField)) ∧
    objGet (extractFieldsBasic "Name: John Smith 1-2-34" leaveTemplate)
      ({ id := "leaveKind", label := "Kind", type := "select", required := true,
         options := some ["Casual", "Earned"] } : TemplateField).id
      = some (defaultFieldValue
          ({ id := "leaveKind", label := "Kind", type := "select", required := true,
             options := some ["Casual", "Earned"] } : TemplateField)) :=
  ⟨(C8_theorem.1 "" leaveTemplate).1,
   C8_theorem.2.1 leaveTemplate _ (by decide) (by decide),
   C8_theorem.2.2 "Name: John Smith 1-2-34" leaveTemplate _ (by decide) (by decide) (by decide)⟩

set_option maxRecDepth 20000 in
/-- C9, counterexample: on a transport failure of the stamp-analysis
call the analyzer returns the local heuristic result, which here flags
a stamp as present, not the fully-defaulted absent result. -/
theorem C9_counterexample :
    (analyzeStampsAndSignatures heuristicEnv).stamp.status = "Present" ∧
    analyzeStampsAndSignatures heuristicEnv ≠ defaultStampResult := by
  constructor
  · decide
  · intro h
    have := congrArg (fun r => r.stamp.status) h
    revert this
    decide

/-- C9, amended: the analyzer never raises; any failure escaping its
inner steps yields the fully-defaulted absent, absent, not-validated
result, while a model-call transport failure degrades to the local
heuristic result instead. -/
theorem C9_theorem :
    (∀ env msg, analyzeStampsBody env = .error msg →
        analyzeStampsAndSignatures env = defaultStampResult) ∧
    (∀ text env m b, env.stampCall = StampCallOutcome.transportError m →
        env.stampB64 = .ok b →
        analyzeWithOllama text env = .ok (fallbackTextAnalysis text)) := by
  constructor
  · intro env msg h
    unfold analyzeStampsAndSignatures
    rw [h]
  · intro text env m b hc hb
    unfold analyzeWithOllama
    rw [hb, hc]

/-- C9, witness: a failing extraction yields the defaulted result and a
transport failure yields the heuristic result. -/
theorem C9_witness :
    analyzeStampsAndSignatures failingExtractionEnv = defaultStampResult ∧
    analyzeWithOllama "sd/- A B" heuristicEnv = .ok (fallbackTextAnalysis "sd/- A B") :=
  ⟨C9_theorem.1 failingExtractionEnv "Ollama text extraction failed: boom" rfl,
   C9_theorem.2 "sd/- A B" heuristicEnv "connection refused" "b64" rfl rfl⟩

/-- C10: the keyword-fallback classifier and the pattern-fallback field
extractor are pure: their results do not depend on the surrounding
service state, so identical inputs give identical outputs across
repeated calls. -/
theorem C10_theorem : ∀ s1 s2 : ServiceState, ∀ text : String,
    ∀ templates : List DocumentType, ∀ userId1 userId2 : String, ∀ template : DocumentType,
    (createFallbackAnalysisSt s1 text templates userId1).1 =
      (createFallbackAnalysisSt s2 text templates userId2).1 ∧
    (createFallbackFieldExtractionSt s1 text template).1 =
      (createFallbackFieldExtractionSt s2 text template).1 := by
  intro s1 s2 text templates u1 u2 template
  exact ⟨rfl, rfl⟩

end Pipeline
